import Mathlib

/-!
Shallow embedding of `src/main.py` (Vision_collage): a PyQt5 desktop
application that lists random photos, lets the user select up to ten of
them, and composes/applies a desktop wallpaper (single image or 3×3
collage).

The GUI toolkit (Qt), the HTTP client (`requests`) and the image library
(Pillow) are external collaborators: network calls are parameters
(oracles `Url → Except String …`), and the few Pillow behaviours the
claims depend on (`Image.open`, `Image.thumbnail`, `Image.save`) are
modelled explicitly with doc comments stating what is kept from the
library's documented contract.

State of `MainWindow` is a structure; every method becomes a pure
function `MainWindow → … → MainWindow` (plus a filesystem component for
the methods that write files). `show_message` calls are logged in a
`messages` field so that the error-reporting claims are observable.
-/

namespace VisionCollage

/-- A photo URL (`PhotoRef` in the spec); the code uses plain strings. -/
abbrev Url := String

/-- A thumbnail widget placed in the grid by `add_image_thumbnail`:
it remembers its url attribute and the grid cell `(position//3, position%3)`
it was added at. -/
structure Thumbnail where
  url : Url
  row : Nat
  col : Nat
  deriving Repr, DecidableEq

/-- The mutable state of `MainWindow.__init__` that the claims are about.
`messages` logs every `show_message(text, duration)` call in order;
`btn_generate_enabled` is the Qt enabled flag of the 生成壁纸 button
(a `QPushButton` is enabled by default when constructed);
`applied_wallpaper` records the last path handed to `set_system_wallpaper`. -/
structure MainWindow where
  selected_images : List Url
  excluded_urls : List Url
  current_page : Nat
  loaders : List Url
  current_batch : List Url
  grid : List Thumbnail
  btn_generate_enabled : Bool
  wallpaper_timer_started : Bool
  timer_interval_ms : Nat
  applied_wallpaper : Option String
  messages : List (String × Nat)
  deriving Repr, DecidableEq

/-- `MainWindow.show_message(text, duration)`: displays a transient notice;
modelled as appending to the message log. -/
def show_message (w : MainWindow) (text : String) (duration : Nat) : MainWindow :=
  { w with messages := w.messages ++ [(text, duration)] }

/-- `MainWindow.toggle_selection(url)`:
excluded urls are ignored; a selected url is removed; an unselected url is
appended unless the selection already has 10 entries, in which case the
capacity warning `最多选择10张图片` is shown and nothing changes.  After an
actual add/remove the code re-renders the selection border
(`update_selection_ui`, pure styling, not modelled) and sets the generate
button enabled iff the selection is non-empty. -/
def toggle_selection (w : MainWindow) (url : Url) : MainWindow :=
  if url ∈ w.excluded_urls then
    w
  else if url ∈ w.selected_images then
    let w := { w with selected_images := w.selected_images.erase url }
    { w with btn_generate_enabled := decide (0 < w.selected_images.length) }
  else if 10 ≤ w.selected_images.length then
    show_message w "最多选择10张图片" 2000
  else
    let w := { w with selected_images := w.selected_images ++ [url] }
    { w with btn_generate_enabled := decide (0 < w.selected_images.length) }

/-- A sequence of `toggle_selection` calls, applied in order. -/
def toggleTrace (w : MainWindow) : List Url → MainWindow
  | [] => w
  | u :: us => toggleTrace (toggle_selection w u) us

/-- The capacity warning was emitted by this one call (the message log grew
by exactly the warning entry). -/
def capacityWarned (w : MainWindow) (url : Url) : Prop :=
  (toggle_selection w url).messages = w.messages ++ [("最多选择10张图片", 2000)]

instance (w : MainWindow) (url : Url) : Decidable (capacityWarned w url) := by
  unfold capacityWarned; infer_instance

/-- The listing URL built in `load_images` from the current page. -/
def listingUrl (page : Nat) : String :=
  "https://picsum.photos/v2/list?page=" ++ toString page ++ "&limit=9&order_by=random"

/-- `MainWindow.add_image_thumbnail(url, position)`: creates the placeholder
thumbnail widget, appends a started `ImageLoader` for `url` to `self.loaders`,
and adds the widget to the grid at cell `(position//3, position%3)`. -/
def add_image_thumbnail (w : MainWindow) (url : Url) (position : Nat) : MainWindow :=
  { w with loaders := w.loaders ++ [url],
           grid := w.grid ++ [⟨url, position / 3, position % 3⟩] }

/-- The `for i, url in enumerate(image_urls)` loop at the end of
`load_images`, calling `add_image_thumbnail(url, i)` for each url. -/
def addThumbs : MainWindow → List Url → Nat → MainWindow
  | w, [], _ => w
  | w, u :: us, i => addThumbs (add_image_thumbnail w u i) us (i + 1)

/-- `MainWindow.load_images()`: fetches the listing for the current page
(the network call and the json extraction of the `download_url` fields are
the oracle `fetchListing`); on any exception a `图片加载失败` notice is shown
and the method returns with no other state change; on success
`current_batch` is ASSIGNED the new url list (`image_urls.copy()`) and one
thumbnail/loader per url is added. -/
def load_images (fetchListing : String → Except String (List Url))
    (w : MainWindow) : MainWindow :=
  match fetchListing (listingUrl w.current_page) with
  | .error e => show_message w ("图片加载失败: " ++ e) 3000
  | .ok image_urls =>
      addThumbs { w with current_batch := image_urls } image_urls 0

/-- `MainWindow.clear_current_batch()`: stops every loader and empties the
loader list, removes every widget from the grid, and clears `current_batch`. -/
def clear_current_batch (w : MainWindow) : MainWindow :=
  { w with loaders := [], grid := [], current_batch := [] }

/-- `MainWindow.load_new_batch()`: clears the current batch, picks the
pseudo-random page `int(time.time() % 100)` (the clock reading `t` is a
parameter) and loads. -/
def load_new_batch (t : Nat) (fetchListing : String → Except String (List Url))
    (w : MainWindow) : MainWindow :=
  load_images fetchListing { clear_current_batch w with current_page := t % 100 }

/-- `MainWindow.load_more_images()`: advances the page by one and loads. -/
def load_more_images (fetchListing : String → Except String (List Url))
    (w : MainWindow) : MainWindow :=
  load_images fetchListing { w with current_page := w.current_page + 1 }

/-- The state `MainWindow.__init__` leaves behind (before the first
`load_new_batch` call): empty selection, empty exclusion list, page 1, no
loaders, empty batch.  The generate button is created in `init_ui` without
any `setEnabled` call, so it has Qt's default, enabled; the wallpaper timer
is created but not started.  `__init__` then runs `load_new_batch`. -/
def initWindow (t : Nat) (fetchListing : String → Except String (List Url)) :
    MainWindow :=
  load_new_batch t fetchListing
    { selected_images := [], excluded_urls := [], current_page := 1,
      loaders := [], current_batch := [], grid := [],
      btn_generate_enabled := true, wallpaper_timer_started := false,
      timer_interval_ms := 0, applied_wallpaper := none, messages := [] }

/-- Raw byte content of a network response or of a file, one `Nat` per byte. -/
abbrev Bytes := List Nat

/-- A decoded in-memory image (a Pillow `Image`): the format sniffed by
`Image.open`, pixel dimensions, and an opaque pixel payload. -/
structure DecodedImg where
  format : String
  width : Nat
  height : Nat
  pixels : List Nat
  deriving Repr, DecidableEq

/-- Modelled from Pillow, an external collaborator of this repository:
`Image.open` identifies the format from the leading signature bytes of the
stream and decodes it, raising when the bytes are no known image.  The model
keeps the two behaviours the claims depend on: a JPEG stream and a PNG
stream begin with different signatures (`FF D8` versus `89 50 4E 47`), and
unidentifiable bytes raise.  Header layout after the signature (width,
height, then pixels) is schematic. -/
def imageOpen (b : Bytes) : Except String DecodedImg :=
  match b with
  | 255 :: 216 :: wpx :: hpx :: rest => .ok ⟨"JPEG", wpx, hpx, rest⟩
  | 137 :: 80 :: 78 :: 71 :: wpx :: hpx :: rest => .ok ⟨"PNG", wpx, hpx, rest⟩
  | _ => .error "cannot identify image file"

/-- Modelled from Pillow: `img.save(path)` with a `.jpg` path always writes
JPEG-encoded bytes (the JPEG signature first), whatever format the image was
decoded from; re-encoding keeps the pixel dimensions. -/
def encodeImgJpeg (img : DecodedImg) : Bytes :=
  255 :: 216 :: img.width :: img.height :: img.pixels

/-- Modelled from Pillow: `Image.thumbnail((tw, th))` resizes the image IN
PLACE to fit inside the `tw × th` box, preserving the aspect ratio, and
never enlarges: an image already no larger than the box is left unchanged.
Pillow rounds the free dimension to the nearest aspect-preserving integer;
the model floors, which changes nothing the claims depend on. -/
def thumbnailPIL (tw th : Nat) (img : DecodedImg) : DecodedImg :=
  if img.width ≤ tw ∧ img.height ≤ th then img
  else if th * img.width ≤ tw * img.height then
    { img with width := max 1 (th * img.width / img.height), height := th }
  else
    { img with width := tw, height := max 1 (tw * img.height / img.width) }

/-- The local filesystem as the program sees it: newest write of a path
first; `List.lookup` reads the current content of a path. -/
abbrev FS := List (String × Bytes)

/-- Writing a file: the new content shadows any prior content of the path. -/
def fsWrite (fs : FS) (path : String) (content : Bytes) : FS :=
  (path, content) :: fs

/-- The composed collage: a 1920×1080 canvas (`Image.new('RGB', …)`, black)
with the list of performed `paste(img, (x, y))` calls in order. -/
structure Canvas where
  width : Nat
  height : Nat
  pastes : List (Nat × Nat × DecodedImg)
  deriving Repr, DecidableEq

/-- Saving the canvas as JPEG: a schematic but concrete byte encoding
(JPEG signature, canvas size, then each paste's position, size and pixels). -/
def encodeCanvasJpeg (c : Canvas) : Bytes :=
  255 :: 216 :: c.width :: c.height :: c.pastes.length ::
    (c.pastes.map (fun p => p.1 :: p.2.1 :: encodeImgJpeg p.2.2)).flatten

/-- One download-and-decode step of `create_collage`:
`requests.get(url, stream=True, timeout=20)` (the oracle) followed by
`Image.open(response.raw)`; every exception of either aborts the `try`. -/
def fetchDecode (fetch : Url → Except String Bytes) (u : Url) :
    Except String DecodedImg :=
  match fetch u with
  | .error e => .error e
  | .ok content => imageOpen content

/-- The `for index, url in enumerate(urls[:9])` loop body of
`create_collage`: download, decode, `img.thumbnail((640, 360))`, then
`collage.paste(img, (640*(index%3), 360*(index//3)))`; the first exception
aborts the loop. -/
def collagePastes (fetch : Url → Except String Bytes) :
    List Url → Nat → Except String (List (Nat × Nat × DecodedImg))
  | [], _ => .ok []
  | u :: rest, index =>
      match fetchDecode fetch u with
      | .error e => .error e
      | .ok img =>
          match collagePastes fetch rest (index + 1) with
          | .error e => .error e
          | .ok ps =>
              .ok ((640 * (index % 3), 360 * (index / 3),
                    thumbnailPIL 640 360 img) :: ps)

/-- Download-and-decode of a whole url list, stopping at the first failure
(the effect of the loop's shared `try`). -/
def decodeAll (fetch : Url → Except String Bytes) :
    List Url → Except String (List DecodedImg)
  | [] => .ok []
  | u :: rest =>
      match fetchDecode fetch u with
      | .error e => .error e
      | .ok img =>
          match decodeAll fetch rest with
          | .error e => .error e
          | .ok imgs => .ok (img :: imgs)

/-- `MainWindow.set_system_wallpaper(path)`: runs the OS-specific
desktop-background command; external side effect, recorded as the last
applied path.  Its own failures are caught and shown, never raised. -/
def set_system_wallpaper (w : MainWindow) (path : String) : MainWindow :=
  { w with applied_wallpaper := some path }

/-- `MainWindow.create_collage(urls)`: builds a blank 1920×1080 canvas,
pastes the first nine urls' thumbnails into their row-major cells, saves the
canvas to `wallpaper_collage.jpg`, applies it and shows `拼图壁纸已生成`; any
exception inside the `try` (download or decode) aborts everything before the
save and shows `拼图生成失败` instead. -/
def create_collage (fetch : Url → Except String Bytes) (w : MainWindow)
    (fs : FS) (urls : List Url) : MainWindow × FS :=
  match collagePastes fetch (urls.take 9) 0 with
  | .error e => (show_message w ("拼图生成失败: " ++ e) 3000, fs)
  | .ok ps =>
      let fs := fsWrite fs "wallpaper_collage.jpg"
        (encodeCanvasJpeg ⟨1920, 1080, ps⟩)
      let w := set_system_wallpaper w "wallpaper_collage.jpg"
      (show_message w "拼图壁纸已生成" 2000, fs)

/-- `MainWindow.set_single_wallpaper(url)`: downloads the full-resolution
image (`requests.get(url, stream=True, timeout=20)`), decodes it with
`Image.open` and RE-SAVES it with `img.save("current_wallpaper.jpg")` (a
decode/re-encode, not a byte copy), applies it and shows `壁纸设置成功`; any
exception shows `壁纸设置失败` and leaves the filesystem untouched. -/
def set_single_wallpaper (fetch : Url → Except String Bytes) (w : MainWindow)
    (fs : FS) (url : Url) : MainWindow × FS :=
  match fetchDecode fetch url with
  | .error e => (show_message w ("壁纸设置失败: " ++ e) 3000, fs)
  | .ok img =>
      let fs := fsWrite fs "current_wallpaper.jpg" (encodeImgJpeg img)
      let w := set_system_wallpaper w "current_wallpaper.jpg"
      (show_message w "壁纸设置成功" 2000, fs)

/-- `MainWindow.generate_wallpaper()`: shows `壁纸生成中...`, dispatches on
the selection count (`len == 1` → single wallpaper, anything else → collage,
the empty selection included), and unconditionally starts the one-hour
wallpaper timer afterwards (both branches catch their own exceptions, so the
`timer.start(3600000)` line is always reached). -/
def generate_wallpaper (fetch : Url → Except String Bytes) (w : MainWindow)
    (fs : FS) : MainWindow × FS :=
  let w := show_message w "壁纸生成中..." 2000
  let r :=
    if w.selected_images.length = 1 then
      set_single_wallpaper fetch w fs w.selected_images.headI
    else
      create_collage fetch w fs w.selected_images
  ({ r.1 with wallpaper_timer_started := true, timer_interval_ms := 3600000 }, r.2)

/-- `MainWindow.update_wallpaper()`: the wallpaper timer's callback;
re-generates only when the selection is non-empty. -/
def update_wallpaper (fetch : Url → Except String Bytes) (w : MainWindow)
    (fs : FS) : MainWindow × FS :=
  if w.selected_images ≠ [] then generate_wallpaper fetch w fs else (w, fs)

/-- A signal emitted by an `ImageLoader` thread: `loaded` is the success
signal (label, pixmap, url), `error` the failure signal with its message. -/
inductive LoaderEvent where
  | loaded (url : Url)
  | error (msg : String)
  deriving Repr, DecidableEq

/-- `ImageLoader.run(self)` as a function of one interleaving with `stop()`.
The thread reads the shared `_is_running` flag twice: once at the top
(`if not self._is_running: return`) and once in the condition
`pixmap.loadFromData(response.content) and self._is_running`; the two reads
are the parameters `runningAtStart` and `runningAtCheck` (`stop()` only ever
turns the flag off, so `runningAtStart = false → runningAtCheck = false` in
any real interleaving).  `response` is the outcome of
`requests.get(url, timeout=10)` plus `raise_for_status()`; `loadFromData`
(Qt, external) is the oracle `loadOk`.  The returned list is the sequence of
signals the call emits. -/
def ImageLoader.run (url : Url) (runningAtStart : Bool)
    (response : Except String Bytes) (loadOk : Bytes → Bool)
    (runningAtCheck : Bool) : List LoaderEvent :=
  if !runningAtStart then []
  else
    match response with
    | .error e => [.error ("加载失败: " ++ url ++ " - " ++ e)]
    | .ok content =>
        if loadOk content && runningAtCheck then [.loaded url]
        else [.error ("无效的图片数据: " ++ url)]

/-- A `MainWindow` as `__init__` sets the fields, before `load_new_batch`. -/
def emptyWindow : MainWindow :=
  { selected_images := [], excluded_urls := [], current_page := 1,
    loaders := [], current_batch := [], grid := [],
    btn_generate_enabled := true, wallpaper_timer_started := false,
    timer_interval_ms := 0, applied_wallpaper := none, messages := [] }

/-- A window whose user has selected `a` first and `b` second. -/
def pairWindow : MainWindow := { emptyWindow with selected_images := ["a", "b"] }

/-- The pastes `create_collage` performs for a successfully decoded image
list, starting at `index`: the `j`-th image lands at the row-major cell
`(640*((index+j)%3), 360*((index+j)//3))` after `thumbnail((640, 360))`. -/
def pasteList : List DecodedImg → Nat → List (Nat × Nat × DecodedImg)
  | [], _ => []
  | img :: rest, index =>
      (640 * (index % 3), 360 * (index / 3), thumbnailPIL 640 360 img)
        :: pasteList rest (index + 1)

/-- A window already showing one loaded batch `["a"]`. -/
def batchWindow : MainWindow :=
  { emptyWindow with current_batch := ["a"], loaders := ["a"],
                     grid := [⟨"a", 0, 0⟩] }

/-- The grid cells `add_image_thumbnail` fills for a url list starting at
`position`: cell `(position//3, position%3)` and onwards. -/
def gridCells : List Url → Nat → List Thumbnail
  | [], _ => []
  | u :: us, i => ⟨u, i / 3, i % 3⟩ :: gridCells us (i + 1)

/-- A PNG byte stream (the PNG signature, a 1×1 header and one pixel). -/
def pngBytes : Bytes := [137, 80, 78, 71, 1, 1, 7]

lemma toggle_selection_excluded (w : MainWindow) (url : Url)
    (h : url ∈ w.excluded_urls) : toggle_selection w url = w := by
  simp [toggle_selection, h]

lemma toggle_selection_remove (w : MainWindow) (url : Url)
    (h1 : url ∉ w.excluded_urls) (h2 : url ∈ w.selected_images) :
    (toggle_selection w url).selected_images = w.selected_images.erase url := by
  simp [toggle_selection, h1, h2]

lemma toggle_selection_warn (w : MainWindow) (url : Url)
    (h1 : url ∉ w.excluded_urls) (h2 : url ∉ w.selected_images)
    (h3 : 10 ≤ w.selected_images.length) :
    toggle_selection w url = show_message w "最多选择10张图片" 2000 := by
  simp [toggle_selection, h1, h2, h3]

lemma toggle_selection_add (w : MainWindow) (url : Url)
    (h1 : url ∉ w.excluded_urls) (h2 : url ∉ w.selected_images)
    (h3 : w.selected_images.length < 10) :
    (toggle_selection w url).selected_images = w.selected_images ++ [url] := by
  simp [toggle_selection, h1, h2, Nat.not_le.mpr h3]

lemma toggle_selection_length_le (w : MainWindow) (url : Url)
    (h : w.selected_images.length ≤ 10) :
    (toggle_selection w url).selected_images.length ≤ 10 := by
  by_cases h1 : url ∈ w.excluded_urls
  · rw [toggle_selection_excluded w url h1]; exact h
  · by_cases h2 : url ∈ w.selected_images
    · rw [toggle_selection_remove w url h1 h2]
      exact le_trans (List.length_erase_le _ _) h
    · by_cases h3 : 10 ≤ w.selected_images.length
      · rw [toggle_selection_warn w url h1 h2 h3]; exact h
      · rw [toggle_selection_add w url h1 h2 (Nat.not_le.mp h3)]
        simp [Nat.succ_le_of_lt (Nat.not_le.mp h3)]

lemma toggle_selection_excluded_eq (w : MainWindow) (url : Url) :
    (toggle_selection w url).excluded_urls = w.excluded_urls := by
  unfold toggle_selection show_message
  split <;> [rfl; split <;> [rfl; (split <;> rfl)]]

lemma toggleTrace_length_le (calls : List Url) (w : MainWindow)
    (h : w.selected_images.length ≤ 10) :
    (toggleTrace w calls).selected_images.length ≤ 10 := by
  induction calls generalizing w with
  | nil => exact h
  | cons u us ih => exact ih _ (toggle_selection_length_le w u h)

lemma capacityWarned_iff (w : MainWindow) (u : Url)
    (h : w.selected_images.length ≤ 10) :
    capacityWarned w u ↔
      (u ∉ w.excluded_urls ∧ u ∉ w.selected_images ∧
        w.selected_images.length = 10) := by
  unfold capacityWarned toggle_selection show_message
  by_cases h1 : u ∈ w.excluded_urls
  · simp [h1]
  · by_cases h2 : u ∈ w.selected_images
    · simp [h1, h2]
    · by_cases h3 : 10 ≤ w.selected_images.length
      · simp [h1, h2, h3, Nat.le_antisymm h h3]
      · simp [h1, h2, h3]
        omega

/-- C1: along every sequence of `toggle_selection` calls from a state with
the empty selection, the selection never exceeds 10 entries; a further call
emits the capacity warning exactly when it attempts to add a
not-yet-selected, not-excluded url while the selection holds 10; and a
warned call leaves the selection unchanged. -/
theorem toggle_selection_capacity (w0 : MainWindow)
    (h0 : w0.selected_images = []) (calls : List Url) (u : Url) :
    (toggleTrace w0 calls).selected_images.length ≤ 10 ∧
    (capacityWarned (toggleTrace w0 calls) u ↔
      (u ∉ (toggleTrace w0 calls).excluded_urls ∧
       u ∉ (toggleTrace w0 calls).selected_images ∧
       (toggleTrace w0 calls).selected_images.length = 10)) ∧
    (capacityWarned (toggleTrace w0 calls) u →
      (toggle_selection (toggleTrace w0 calls) u).selected_images
        = (toggleTrace w0 calls).selected_images) := by
  have hlen : (toggleTrace w0 calls).selected_images.length ≤ 10 :=
    toggleTrace_length_le calls w0 (by rw [h0]; exact Nat.zero_le 10)
  refine ⟨hlen, capacityWarned_iff _ u hlen, fun hw => ?_⟩
  rcases (capacityWarned_iff _ u hlen).mp hw with ⟨h1, h2, h3⟩
  rw [toggle_selection_warn _ u h1 h2 (le_of_eq h3.symm)]
  rfl

/-- The C1 statement applied at a concrete trace: one toggle of `a` from the
empty selection, probed with `b`. -/
theorem toggle_selection_capacity_witness :
    (toggleTrace emptyWindow ["a"]).selected_images.length ≤ 10 ∧
    (capacityWarned (toggleTrace emptyWindow ["a"]) "b" ↔
      ("b" ∉ (toggleTrace emptyWindow ["a"]).excluded_urls ∧
       "b" ∉ (toggleTrace emptyWindow ["a"]).selected_images ∧
       (toggleTrace emptyWindow ["a"]).selected_images.length = 10)) ∧
    (capacityWarned (toggleTrace emptyWindow ["a"]) "b" →
      (toggle_selection (toggleTrace emptyWindow ["a"]) "b").selected_images
        = (toggleTrace emptyWindow ["a"]).selected_images) :=
  toggle_selection_capacity emptyWindow rfl ["a"] "b"

/-- C9 as stated is false: with `a` selected before `b`, toggling `a` twice
re-appends `a` after `b`, so the state (whose insertion order drives collage
placement) differs from the prior one. -/
theorem toggle_twice_reorders :
    (toggle_selection (toggle_selection pairWindow "a") "a").selected_images
      = ["b", "a"] ∧
    pairWindow.selected_images = ["a", "b"] ∧
    toggle_selection (toggle_selection pairWindow "a") "a" ≠ pairWindow := by
  refine ⟨by decide, by decide, ?_⟩
  intro h
  have : (toggle_selection (toggle_selection pairWindow "a") "a").selected_images
      = pairWindow.selected_images := by rw [h]
  revert this
  decide

/-- C9 (amended): toggling the same url twice restores the selection's
membership, and restores the selection exactly when the url was not already
selected; a url selected earlier in the order is re-appended at the end, so
only the insertion order can change. -/
theorem toggle_twice_membership (w : MainWindow) (u : Url)
    (hnd : w.selected_images.Nodup) (hlen : w.selected_images.length ≤ 10) :
    (∀ x, x ∈ (toggle_selection (toggle_selection w u) u).selected_images ↔
      x ∈ w.selected_images) ∧
    (u ∉ w.selected_images →
      (toggle_selection (toggle_selection w u) u).selected_images
        = w.selected_images) := by
  by_cases h1 : u ∈ w.excluded_urls
  · rw [toggle_selection_excluded w u h1, toggle_selection_excluded w u h1]
    exact ⟨fun _ => Iff.rfl, fun _ => rfl⟩
  · by_cases h2 : u ∈ w.selected_images
    · -- first toggle removes `u`, second re-appends it at the end
      have e1 : (toggle_selection w u).selected_images
          = w.selected_images.erase u := toggle_selection_remove w u h1 h2
      have hexcl : (toggle_selection w u).excluded_urls = w.excluded_urls :=
        toggle_selection_excluded_eq w u
      have h2' : u ∉ (toggle_selection w u).selected_images := by
        rw [e1]; exact hnd.not_mem_erase
      have hlt : (toggle_selection w u).selected_images.length < 10 := by
        rw [e1, List.length_erase_of_mem h2]
        have : 0 < w.selected_images.length := List.length_pos_of_mem h2
        omega
      have e2 : (toggle_selection (toggle_selection w u) u).selected_images
          = (toggle_selection w u).selected_images ++ [u] :=
        toggle_selection_add _ u (by rw [hexcl]; exact h1) h2' hlt
      refine ⟨fun x => ?_, fun hu => absurd h2 hu⟩
      rw [e2, e1]
      by_cases hx : x = u
      · subst hx
        simp [h2]
      · simp [hx, List.mem_erase_of_ne hx]
    · by_cases h3 : 10 ≤ w.selected_images.length
      · have e1 : toggle_selection w u = show_message w "最多选择10张图片" 2000 :=
          toggle_selection_warn w u h1 h2 h3
        have e2 : toggle_selection (toggle_selection w u) u
            = show_message (toggle_selection w u) "最多选择10张图片" 2000 := by
          apply toggle_selection_warn <;> rw [e1] <;> exact (by assumption)
        rw [e2, e1]
        exact ⟨fun _ => Iff.rfl, fun _ => rfl⟩
      · -- first toggle appends `u`, second erases it again
        have e1 : (toggle_selection w u).selected_images
            = w.selected_images ++ [u] :=
          toggle_selection_add w u h1 h2 (Nat.not_le.mp h3)
        have hexcl : (toggle_selection w u).excluded_urls = w.excluded_urls :=
          toggle_selection_excluded_eq w u
        have h2' : u ∈ (toggle_selection w u).selected_images := by
          rw [e1]; simp
        have e2 : (toggle_selection (toggle_selection w u) u).selected_images
            = (toggle_selection w u).selected_images.erase u :=
          toggle_selection_remove _ u (by rw [hexcl]; exact h1) h2'
        have key : (toggle_selection (toggle_selection w u) u).selected_images
            = w.selected_images := by
          rw [e2, e1, List.erase_append_right _ h2, List.erase_cons_head,
            List.append_nil]
        exact ⟨fun x => by rw [key], fun _ => key⟩

/-- The amended C9 applied at the concrete window with selection `[a, b]`,
toggling `a` twice. -/
theorem toggle_twice_membership_witness :
    (∀ x, x ∈ (toggle_selection (toggle_selection pairWindow "a") "a").selected_images ↔
      x ∈ pairWindow.selected_images) ∧
    ("a" ∉ pairWindow.selected_images →
      (toggle_selection (toggle_selection pairWindow "a") "a").selected_images
        = pairWindow.selected_images) :=
  toggle_twice_membership pairWindow "a" (by decide) (by decide)

/-- C4: the code is wrong where the claim says a stopped fetcher stays
silent.  At the interleaving where `stop()` lands while the request is in
flight (flag still true at `run`'s entry, false at the emit check) and the
downloaded bytes decode fine, `run` falls into the `else` of
`loadFromData(...) and self._is_running` and emits the error signal with the
invalid-image-data message — the failure callback fires after the stop, and
with a message that contradicts what actually happened.  Only a stop that
lands before `run`'s first flag read is silent. -/
theorem imageLoader_stopped_emits_error :
    ImageLoader.run "u" true (.ok [255, 216, 1, 1]) (fun _ => true) false
      = [.error ("无效的图片数据: " ++ "u")] ∧
    ImageLoader.run "u" false (.ok [255, 216, 1, 1]) (fun _ => true) false
      = [] := by
  exact ⟨rfl, rfl⟩

lemma collagePastes_of_decodeAll (fetch : Url → Except String Bytes) :
    ∀ (l : List Url) (imgs : List DecodedImg) (i : Nat),
    decodeAll fetch l = .ok imgs →
    collagePastes fetch l i = .ok (pasteList imgs i) := by
  intro l
  induction l with
  | nil =>
      intro imgs i h
      simp only [decodeAll] at h
      cases h
      rfl
  | cons u rest ih =>
      intro imgs i h
      simp only [decodeAll] at h
      cases hd : fetchDecode fetch u with
      | error e => rw [hd] at h; cases h
      | ok img =>
          rw [hd] at h
          cases hrest : decodeAll fetch rest with
          | error e => rw [hrest] at h; cases h
          | ok rimgs =>
              rw [hrest] at h
              cases h
              simp only [collagePastes, hd, ih rimgs (i + 1) hrest, pasteList]

lemma pasteList_getElem :
    ∀ (imgs : List DecodedImg) (i j : Nat) (img : DecodedImg),
    imgs[j]? = some img →
    (pasteList imgs i)[j]?
      = some (640 * ((i + j) % 3), 360 * ((i + j) / 3),
              thumbnailPIL 640 360 img) := by
  intro imgs
  induction imgs with
  | nil => intro i j img h; simp at h
  | cons im rest ih =>
      intro i j img h
      cases j with
      | zero =>
          simp only [List.getElem?_cons_zero, Option.some_inj] at h
          subst h
          simp [pasteList]
      | succ j =>
          simp only [List.getElem?_cons_succ] at h
          have := ih (i + 1) j img h
          simp only [pasteList, List.getElem?_cons_succ, this]
          have harith : i + 1 + j = i + (j + 1) := by omega
          rw [harith]

lemma thumbnailPIL_fits (img : DecodedImg) :
    (thumbnailPIL 640 360 img).width ≤ 640 ∧
    (thumbnailPIL 640 360 img).height ≤ 360 := by
  unfold thumbnailPIL
  split
  next h => exact ⟨h.1, h.2⟩
  next h =>
    split
    next h2 =>
      refine ⟨?_, le_refl 360⟩
      have hdiv : 360 * img.width / img.height ≤ 640 := by
        rcases Nat.eq_zero_or_pos img.height with h0 | h0
        · simp [h0]
        · calc 360 * img.width / img.height
              ≤ 640 * img.height / img.height := Nat.div_le_div_right h2
            _ = 640 := Nat.mul_div_cancel _ h0
      exact max_le (by omega) hdiv
    next h2 =>
      refine ⟨le_refl 640, ?_⟩
      have h2' : 640 * img.height ≤ 360 * img.width := le_of_not_le h2
      have hdiv : 640 * img.height / img.width ≤ 360 := by
        rcases Nat.eq_zero_or_pos img.width with h0 | h0
        · simp [h0]
        · calc 640 * img.height / img.width
              ≤ 360 * img.width / img.width := Nat.div_le_div_right h2'
            _ = 360 := Nat.mul_div_cancel _ h0
      exact max_le (by omega) hdiv

lemma collagePastes_congr (f g : Url → Except String Bytes) :
    ∀ (l : List Url) (i : Nat), (∀ v ∈ l, g v = f v) →
    collagePastes g l i = collagePastes f l i := by
  intro l
  induction l with
  | nil => intro i _; rfl
  | cons u rest ih =>
      intro i hagree
      have hu : fetchDecode g u = fetchDecode f u := by
        unfold fetchDecode
        rw [hagree u (List.mem_cons_self u rest)]
      simp only [collagePastes, hu,
        ih (i + 1) (fun v hv => hagree v (List.mem_cons_of_mem u hv))]

/-- C2 (amended): on a list of refs whose first nine all download and decode,
`create_collage` writes to the fixed path `wallpaper_collage.jpg` the
1920×1080 canvas whose `j`-th paste is the `j`-th decoded image, downscaled
by `Image.thumbnail` to FIT WITHIN the 640×360 cell (aspect preserved, never
enlarged — not stretched to exactly 640×360), pasted at the row-major cell
position `(640*(j%3), 360*(j//3))`; refs beyond the ninth are never fetched. -/
theorem create_collage_layout (fetch : Url → Except String Bytes)
    (w : MainWindow) (fs : FS) (urls : List Url) (imgs : List DecodedImg)
    (h : decodeAll fetch (urls.take 9) = .ok imgs) :
    create_collage fetch w fs urls
      = (show_message (set_system_wallpaper w "wallpaper_collage.jpg")
           "拼图壁纸已生成" 2000,
         fsWrite fs "wallpaper_collage.jpg"
           (encodeCanvasJpeg ⟨1920, 1080, pasteList imgs 0⟩)) ∧
    (∀ j img, imgs[j]? = some img →
      (pasteList imgs 0)[j]?
        = some (640 * (j % 3), 360 * (j / 3), thumbnailPIL 640 360 img)) ∧
    (∀ img, (thumbnailPIL 640 360 img).width ≤ 640 ∧
            (thumbnailPIL 640 360 img).height ≤ 360) ∧
    (∀ fetch2, (∀ v ∈ urls.take 9, fetch2 v = fetch v) →
      create_collage fetch2 w fs urls = create_collage fetch w fs urls) := by
  refine ⟨?_, ?_, thumbnailPIL_fits, ?_⟩
  · unfold create_collage
    rw [collagePastes_of_decodeAll fetch (urls.take 9) imgs 0 h]
  · intro j img hj
    have := pasteList_getElem imgs 0 j img hj
    simpa using this
  · intro fetch2 hagree
    unfold create_collage
    rw [collagePastes_congr fetch fetch2 (urls.take 9) 0 hagree]

/-- The amended C2 applied to one url whose bytes decode to a 2×3 JPEG. -/
theorem create_collage_layout_witness :
    create_collage (fun _ => Except.ok [255, 216, 2, 3]) emptyWindow [] ["a"]
      = (show_message (set_system_wallpaper emptyWindow "wallpaper_collage.jpg")
           "拼图壁纸已生成" 2000,
         fsWrite [] "wallpaper_collage.jpg"
           (encodeCanvasJpeg ⟨1920, 1080, pasteList [⟨"JPEG", 2, 3, []⟩] 0⟩)) :=
  (create_collage_layout (fun _ => Except.ok [255, 216, 2, 3]) emptyWindow []
    ["a"] [⟨"JPEG", 2, 3, []⟩] rfl).1

/-- C2 as stated is false: a 100×100 image is left at 100×100 by
`Image.thumbnail((640, 360))` (it only shrinks to fit the cell, never
stretches to it), so the image pasted at cell 0 is not of the claimed fixed
cell size 640×360. -/
theorem create_collage_not_cell_sized :
    collagePastes (fun _ => Except.ok [255, 216, 100, 100]) ["u"] 0
      = .ok [(0, 0, ⟨"JPEG", 100, 100, []⟩)] ∧
    (create_collage (fun _ => Except.ok [255, 216, 100, 100])
        emptyWindow [] ["u"]).2.lookup "wallpaper_collage.jpg"
      = some (encodeCanvasJpeg ⟨1920, 1080, [(0, 0, ⟨"JPEG", 100, 100, []⟩)]⟩) ∧
    ¬((100, 100) = (640, 360)) := by
  refine ⟨rfl, by decide, by decide⟩

lemma collagePastes_error_of_mem (fetch : Url → Except String Bytes) :
    ∀ (l : List Url) (i : Nat),
    (∃ u ∈ l, ∃ e, fetchDecode fetch u = .error e) →
    ∃ e, collagePastes fetch l i = .error e := by
  intro l
  induction l with
  | nil => intro i h; rcases h with ⟨u, hu, _⟩; cases hu
  | cons u rest ih =>
      intro i h
      cases hd : fetchDecode fetch u with
      | error e => exact ⟨e, by simp only [collagePastes, hd]⟩
      | ok img =>
          rcases h with ⟨v, hv, e, he⟩
          rcases List.mem_cons.mp hv with rfl | hv'
          · rw [hd] at he; cases he
          · rcases ih (i + 1) ⟨v, hv', e, he⟩ with ⟨e', he'⟩
            exact ⟨e', by simp only [collagePastes, hd, he']⟩

/-- C5: if downloading or decoding any of the first nine refs fails, the
whole composition aborts: the `拼图生成失败` message is shown and the
filesystem — in particular the collage output path — is exactly as before
(the `collage.save` call comes after the whole paste loop, so no partial
file is ever written). -/
theorem create_collage_abort_on_failure (fetch : Url → Except String Bytes)
    (w : MainWindow) (fs : FS) (urls : List Url)
    (h : ∃ u ∈ urls.take 9, ∃ e, fetchDecode fetch u = .error e) :
    (create_collage fetch w fs urls).2 = fs ∧
    ∃ e, (create_collage fetch w fs urls).1
      = show_message w ("拼图生成失败: " ++ e) 3000 := by
  rcases collagePastes_error_of_mem fetch (urls.take 9) 0 h with ⟨e, he⟩
  unfold create_collage
  rw [he]
  exact ⟨rfl, e, rfl⟩

/-- C5 applied at a concrete failing download, with a pre-existing file. -/
theorem create_collage_abort_on_failure_witness :
    (create_collage (fun _ => Except.error "timeout") emptyWindow
      [("wallpaper_collage.jpg", [9, 9])] ["a"]).2
      = [("wallpaper_collage.jpg", [9, 9])] :=
  (create_collage_abort_on_failure (fun _ => Except.error "timeout")
    emptyWindow [("wallpaper_collage.jpg", [9, 9])] ["a"]
    ⟨"a", by decide, "timeout", rfl⟩).1

/-- C6 as stated is false for `load_new_batch`: `clear_current_batch` runs
BEFORE the listing fetch, so when the fetch then fails the previous batch
and grid are already gone — the user is left with an empty grid, not with
the prior batch still visible. -/
theorem load_new_batch_failure_clears :
    (load_new_batch 5 (fun _ => Except.error "timeout") batchWindow).current_batch
      = [] ∧
    (load_new_batch 5 (fun _ => Except.error "timeout") batchWindow).grid = [] ∧
    batchWindow.current_batch = ["a"] ∧ batchWindow.grid = [⟨"a", 0, 0⟩] := by
  refine ⟨rfl, rfl, rfl, rfl⟩

/-- C6 (amended): a listing-fetch failure shows the transient
`图片加载失败` notice and adds no partial batch.  For `load_more_images` the
previous batch, grid and loaders are exactly as before (only the page index
has advanced); for `load_new_batch` the prior batch was already cleared
before the fetch, so failure leaves the empty grid, not the previous one. -/
theorem load_more_images_failure_frame
    (fetchListing : String → Except String (List Url)) (w : MainWindow)
    (e : String)
    (h : fetchListing (listingUrl (w.current_page + 1)) = .error e) :
    load_more_images fetchListing w
      = { w with current_page := w.current_page + 1,
                 messages := w.messages ++ [("图片加载失败: " ++ e, 3000)] } ∧
    (∀ (t : Nat) (fetch2 : String → Except String (List Url)) (e2 : String),
      fetch2 (listingUrl (t % 100)) = .error e2 →
      (load_new_batch t fetch2 w).current_batch = [] ∧
      (load_new_batch t fetch2 w).grid = [] ∧
      (load_new_batch t fetch2 w).loaders = []) := by
  constructor
  · unfold load_more_images load_images
    rw [h]
    rfl
  · intro t fetch2 e2 h2
    unfold load_new_batch load_images clear_current_batch
    rw [h2]
    exact ⟨rfl, rfl, rfl⟩

/-- The amended C6 applied to the concrete one-batch window and a failing
listing endpoint. -/
theorem load_more_images_failure_frame_witness :
    load_more_images (fun _ => Except.error "timeout") batchWindow
      = { batchWindow with
            current_page := batchWindow.current_page + 1,
            messages := batchWindow.messages
              ++ [("图片加载失败: " ++ "timeout", 3000)] } :=
  (load_more_images_failure_frame (fun _ => Except.error "timeout")
    batchWindow "timeout" rfl).1

lemma addThumbs_fields (us : List Url) :
    ∀ (w : MainWindow) (i : Nat),
    (addThumbs w us i).loaders = w.loaders ++ us ∧
    (addThumbs w us i).grid = w.grid ++ gridCells us i ∧
    (addThumbs w us i).current_batch = w.current_batch ∧
    (addThumbs w us i).current_page = w.current_page ∧
    (addThumbs w us i).selected_images = w.selected_images ∧
    (addThumbs w us i).messages = w.messages := by
  induction us with
  | nil => intro w i; simp [addThumbs, gridCells]
  | cons u us ih =>
      intro w i
      have h := ih (add_image_thumbnail w u i) (i + 1)
      simp only [addThumbs, add_image_thumbnail] at h ⊢
      simp only [gridCells]
      obtain ⟨h1, h2, h3, h4, h5, h6⟩ := h
      refine ⟨?_, ?_, h3, h4, h5, h6⟩
      · rw [h1, List.append_assoc]; rfl
      · rw [h2, List.append_assoc]; rfl

/-- C7 as stated is false: on a successful load-more fetch the new
PhotoRefs REPLACE `current_batch` (`self.current_batch = image_urls.copy()`)
instead of being appended — the prior batch `["a"]` is discarded from the
Batch even though its grid widget and fetcher survive. -/
theorem load_more_images_replaces_batch :
    (load_more_images (fun _ => Except.ok ["b"]) batchWindow).current_batch
      = ["b"] ∧
    batchWindow.current_batch = ["a"] ∧
    (load_more_images (fun _ => Except.ok ["b"]) batchWindow).current_batch
      ≠ ["a", "b"] := by
  refine ⟨rfl, rfl, by decide⟩

/-- C7 (amended): `load_more_images` advances the page index by exactly one
and, on a successful fetch, appends the new fetchers and grid widgets to the
existing ones without discarding any — but `current_batch` (the Batch) is
replaced wholesale by the newly returned PhotoRefs, not appended to.  The
selection and message log are untouched. -/
theorem load_more_images_success
    (fetchListing : String → Except String (List Url)) (w : MainWindow)
    (news : List Url)
    (h : fetchListing (listingUrl (w.current_page + 1)) = .ok news) :
    (load_more_images fetchListing w).current_page = w.current_page + 1 ∧
    (load_more_images fetchListing w).loaders = w.loaders ++ news ∧
    (load_more_images fetchListing w).grid = w.grid ++ gridCells news 0 ∧
    (load_more_images fetchListing w).current_batch = news ∧
    (load_more_images fetchListing w).selected_images = w.selected_images ∧
    (load_more_images fetchListing w).messages = w.messages := by
  unfold load_more_images load_images
  rw [h]
  have ha := addThumbs_fields news
    { w with current_page := w.current_page + 1, current_batch := news } 0
  obtain ⟨h1, h2, h3, h4, h5, h6⟩ := ha
  exact ⟨h4, h1, h2, h3, h5, h6⟩

/-- The amended C7 applied to the concrete one-batch window and a listing
returning `["b"]`. -/
theorem load_more_images_success_witness :
    (load_more_images (fun _ => Except.ok ["b"]) batchWindow).current_page
      = batchWindow.current_page + 1 ∧
    (load_more_images (fun _ => Except.ok ["b"]) batchWindow).loaders
      = batchWindow.loaders ++ ["b"] ∧
    (load_more_images (fun _ => Except.ok ["b"]) batchWindow).grid
      = batchWindow.grid ++ gridCells ["b"] 0 ∧
    (load_more_images (fun _ => Except.ok ["b"]) batchWindow).current_batch
      = ["b"] ∧
    (load_more_images (fun _ => Except.ok ["b"]) batchWindow).selected_images
      = batchWindow.selected_images ∧
    (load_more_images (fun _ => Except.ok ["b"]) batchWindow).messages
      = batchWindow.messages :=
  load_more_images_success (fun _ => Except.ok ["b"]) batchWindow ["b"] rfl

/-- C8 as stated is false: `set_single_wallpaper` does not copy the
downloaded bytes to disk, it decodes them (`Image.open`) and re-saves the
image with `img.save("current_wallpaper.jpg")`, which encodes as JPEG.  For
a PNG download the written file starts with the JPEG signature, not the
downloaded PNG bytes — not byte-for-byte identical. -/
theorem set_single_wallpaper_not_verbatim :
    (set_single_wallpaper (fun _ => Except.ok pngBytes) emptyWindow []
        "u").2.lookup "current_wallpaper.jpg"
      = some [255, 216, 1, 1, 7] ∧
    pngBytes ≠ [255, 216, 1, 1, 7] := by
  refine ⟨rfl, by decide⟩

/-- C8 (amended): `set_single_wallpaper` downloads the full-resolution
image, decodes it, and writes its JPEG re-encoding (same pixel dimensions,
not in general the downloaded bytes) to the fixed path
`current_wallpaper.jpg`, overwriting any prior content of that path; it then
applies the file and reports success. -/
theorem set_single_wallpaper_writes_jpeg (fetch : Url → Except String Bytes)
    (w : MainWindow) (fs : FS) (url : Url) (content : Bytes)
    (img : DecodedImg) (h1 : fetch url = .ok content)
    (h2 : imageOpen content = .ok img) :
    set_single_wallpaper fetch w fs url
      = (show_message (set_system_wallpaper w "current_wallpaper.jpg")
           "壁纸设置成功" 2000,
         fsWrite fs "current_wallpaper.jpg" (encodeImgJpeg img)) ∧
    (set_single_wallpaper fetch w fs url).2.lookup "current_wallpaper.jpg"
      = some (encodeImgJpeg img) := by
  have hd : fetchDecode fetch url = .ok img := by
    unfold fetchDecode
    rw [h1]
    exact h2
  constructor
  · unfold set_single_wallpaper
    rw [hd]
  · unfold set_single_wallpaper
    rw [hd]
    simp [fsWrite, List.lookup]

/-- The amended C8 applied to a concrete PNG download over a pre-existing
file at the output path. -/
theorem set_single_wallpaper_writes_jpeg_witness :
    set_single_wallpaper (fun _ => Except.ok pngBytes) emptyWindow
        [("current_wallpaper.jpg", [0])] "u"
      = (show_message (set_system_wallpaper emptyWindow "current_wallpaper.jpg")
           "壁纸设置成功" 2000,
         fsWrite [("current_wallpaper.jpg", [0])] "current_wallpaper.jpg"
           (encodeImgJpeg ⟨"PNG", 1, 1, [7]⟩)) :=
  (set_single_wallpaper_writes_jpeg (fun _ => Except.ok pngBytes) emptyWindow
    [("current_wallpaper.jpg", [0])] "u" pngBytes ⟨"PNG", 1, 1, [7]⟩
    rfl rfl).1

lemma lookup_fsWrite_ne (fs : FS) (p q : String) (v : Bytes) (h : p ≠ q) :
    (fsWrite fs q v).lookup p = fs.lookup p := by
  have hb : (p == q) = false := beq_eq_false_iff_ne.mpr h
  simp [fsWrite, List.lookup, hb]

lemma set_single_wallpaper_fs_other (fetch : Url → Except String Bytes)
    (w : MainWindow) (fs : FS) (url : Url) (p : String)
    (hp : p ≠ "current_wallpaper.jpg") :
    (set_single_wallpaper fetch w fs url).2.lookup p = fs.lookup p := by
  unfold set_single_wallpaper
  cases fetchDecode fetch url with
  | error e => rfl
  | ok img => exact lookup_fsWrite_ne fs p _ _ hp

lemma create_collage_fs_other (fetch : Url → Except String Bytes)
    (w : MainWindow) (fs : FS) (urls : List Url) (p : String)
    (hp : p ≠ "wallpaper_collage.jpg") :
    (create_collage fetch w fs urls).2.lookup p = fs.lookup p := by
  unfold create_collage
  cases collagePastes fetch (urls.take 9) 0 with
  | error e => rfl
  | ok ps => exact lookup_fsWrite_ne fs p _ _ hp

lemma generate_wallpaper_snd (fetch : Url → Except String Bytes)
    (w : MainWindow) (fs : FS) :
    (generate_wallpaper fetch w fs).2
      = if w.selected_images.length = 1 then
          (set_single_wallpaper fetch (show_message w "壁纸生成中..." 2000) fs
            w.selected_images.headI).2
        else
          (create_collage fetch (show_message w "壁纸生成中..." 2000) fs
            w.selected_images).2 := by
  by_cases h : w.selected_images.length = 1
  · simp [generate_wallpaper, show_message, h]
  · simp [generate_wallpaper, show_message, h]

/-- C3 as stated is false at n = 0: `init_ui` never calls `setEnabled` on
the generate button, so at startup it has Qt's default, enabled, while the
selection is empty — the generate action CAN run with an empty selection.
Running it takes the collage branch (`len(...) == 1` is false) and writes
the all-black empty 1920×1080 collage to the output path. -/
theorem generate_enabled_on_empty_selection :
    (initWindow 0 (fun _ => Except.error "timeout")).selected_images = [] ∧
    (initWindow 0 (fun _ => Except.error "timeout")).btn_generate_enabled
      = true ∧
    (generate_wallpaper (fun _ => Except.error "down")
        (initWindow 0 (fun _ => Except.error "timeout")) []).2.lookup
        "wallpaper_collage.jpg"
      = some (encodeCanvasJpeg ⟨1920, 1080, []⟩) := by
  refine ⟨rfl, rfl, rfl⟩

/-- C3 (amended): when `generate_wallpaper` runs, a selection of exactly one
routes to the single-image path (the collage output path is never touched)
and every other count — zero included — routes to the collage path (the
single output path is never touched).  After any `toggle_selection` call
that changes the selection the generate button is enabled iff the selection
is non-empty; but the button starts out enabled with the empty selection
(see the counterexample), and only the timer path is guarded: with an empty
selection `update_wallpaper` generates nothing. -/
theorem generate_dispatch_rule (fetch : Url → Except String Bytes)
    (w : MainWindow) (fs : FS) (u : Url) :
    (w.selected_images.length = 1 →
      (generate_wallpaper fetch w fs).2.lookup "wallpaper_collage.jpg"
        = fs.lookup "wallpaper_collage.jpg") ∧
    (w.selected_images.length ≠ 1 →
      (generate_wallpaper fetch w fs).2.lookup "current_wallpaper.jpg"
        = fs.lookup "current_wallpaper.jpg") ∧
    ((toggle_selection w u).selected_images ≠ w.selected_images →
      (toggle_selection w u).btn_generate_enabled
        = decide (0 < (toggle_selection w u).selected_images.length)) ∧
    (w.selected_images = [] → update_wallpaper fetch w fs = (w, fs)) := by
  refine ⟨fun h1 => ?_, fun h1 => ?_, fun hne => ?_, fun h => ?_⟩
  · rw [generate_wallpaper_snd, if_pos h1]
    exact set_single_wallpaper_fs_other fetch _ fs _ _ (by decide)
  · rw [generate_wallpaper_snd, if_neg h1]
    exact create_collage_fs_other fetch _ fs _ _ (by decide)
  · by_cases h1 : u ∈ w.excluded_urls
    · rw [toggle_selection_excluded w u h1] at hne
      exact absurd rfl hne
    · by_cases h2 : u ∈ w.selected_images
      · simp [toggle_selection, h1, h2]
      · by_cases h3 : 10 ≤ w.selected_images.length
        · rw [toggle_selection_warn w u h1 h2 h3] at hne
          exact absurd rfl hne
        · simp [toggle_selection, h1, h2, h3]
  · simp [update_wallpaper, h]

/-- C10: every `generate_wallpaper` call — user-triggered or timer-triggered,
successful or not — ends by (re)starting the one-hour wallpaper timer
(`self.wallpaper_timer.start(3600000)` sits after both dispatch branches,
each of which swallows its own exceptions); and the timer's callback
`update_wallpaper` re-invokes `generate_wallpaper` exactly when the
selection is non-empty. -/
theorem generate_wallpaper_timer (fetch : Url → Except String Bytes)
    (w : MainWindow) (fs : FS) :
    (generate_wallpaper fetch w fs).1.wallpaper_timer_started = true ∧
    (generate_wallpaper fetch w fs).1.timer_interval_ms = 3600000 ∧
    (w.selected_images ≠ [] →
      update_wallpaper fetch w fs = generate_wallpaper fetch w fs) ∧
    (w.selected_images = [] → update_wallpaper fetch w fs = (w, fs)) := by
  refine ⟨rfl, rfl, fun h => ?_, fun h => ?_⟩
  · simp [update_wallpaper, h]
  · simp [update_wallpaper, h]

end VisionCollage
